import Mathlib

/-!
Shallow embedding of the Arabic morphology backend (`app.py`): the tasrif
(conjugation/declension) generators, the rule-selector lookup, the `/tasrif`
request handler, and the `/analyze` morphology proxy with its error handling.
All string templates are transcribed byte for byte from the source.
-/

namespace ArabicMorphology

/-- One-character string, used to splice a root character into a template. -/
def cs (c : Char) : String := String.singleton c

/-- Models Python `str.strip()`: drop whitespace from both ends. -/
def py_strip (s : String) : String :=
  String.mk (((s.data.dropWhile Char.isWhitespace).reverse.dropWhile Char.isWhitespace).reverse)

/-- Models Python `.replace(' ', '')`: delete every space character. -/
def strip_spaces (s : String) : String :=
  String.mk (s.data.filter (fun c => c ≠ ' '))

/-- The root normalization of the `/tasrif` handler: `data['root'].strip().replace(' ', '')`. -/
def normalize_root (s : String) : String := strip_spaces (py_strip s)

/-- The string made of the first three characters of `s` (used to state claims). -/
def first_three (s : String) : String := String.mk (s.data.take 3)

/-- `root[0]` (total, with an arbitrary default: the source only reads it when the length check has passed). -/
def r1_of (root : String) : Char := root.data.getD 0 '?'

/-- `root[1]`. -/
def r2_of (root : String) : Char := root.data.getD 1 '?'

/-- `root[2]`. -/
def r3_of (root : String) : Char := root.data.getD 2 '?'

/-- The static root-to-rule mapping of `get_rule_by_root` (`app.py` lines 177-184). -/
def rule_map : List (String × Nat) := [
  ("نصر", 1), ("كتب", 1), ("ضرب", 2), ("جلس", 2), ("فتح", 3), ("ذهب", 3), ("علم", 4), ("شرب", 4), ("كرم", 5), ("حسن", 5), ("حسب", 6), ("ورث", 6)]

/-- `get_rule_by_root`: dictionary lookup with default 1 (`rule_map.get(root, 1)`). -/
def get_rule_by_root (root : String) : Nat := ((rule_map.lookup root).getD 1)

/-- The six labels of `generate_tasrif_isim`, in source order. -/
def isim_labels : List String := [
  "المفرد (Singular)", "المثنى المذكر (Dual Masculine)", "المثنى المؤنث (Dual Feminine)", "الجمع المذكر السالم (Sound Masculine Plural)", "الجمع المؤنث السالم (Sound Feminine Plural)", "جمع التكسير (Broken Plural)"]

/-- The six (label, form) pairs of `generate_tasrif_isim` for slot characters r1 r2 r3
(the single فَاعِل noun pattern, `app.py` lines 194-215). -/
def isim_pairs (r1 r2 r3 : Char) : List (String × String) := [
  ("المفرد (Singular)", cs r1 ++ "َا" ++ cs r2 ++ "ِ" ++ cs r3 ++ "ٌ"),
  ("المثنى المذكر (Dual Masculine)", cs r1 ++ "َا" ++ cs r2 ++ "ِ" ++ cs r3 ++ "َانِ"),
  ("المثنى المؤنث (Dual Feminine)", cs r1 ++ "َا" ++ cs r2 ++ "ِ" ++ cs r3 ++ "َتَانِ"),
  ("الجمع المذكر السالم (Sound Masculine Plural)", cs r1 ++ "َا" ++ cs r2 ++ "ِ" ++ cs r3 ++ "ُونَ"),
  ("الجمع المؤنث السالم (Sound Feminine Plural)", cs r1 ++ "َا" ++ cs r2 ++ "ِ" ++ cs r3 ++ "َاتٌ"),
  ("جمع التكسير (Broken Plural)", cs r1 ++ "ُ" ++ cs r2 ++ "َّا" ++ cs r3 ++ "ٌ")]

/-- `generate_tasrif_isim` (`app.py` lines 187-217). -/
def generate_tasrif_isim (root : String) : List (String × String) :=
  if root.length < 3 then []
  else isim_pairs (r1_of root) (r2_of root) (r3_of root)

/-- The eleven labels of the istilahi table, in source order. -/
def istilahi_labels : List String := [
  "1. الفعل الماضي", "2. الفعل المضارع", "3. المصدر", "4. المصدر الميمي", "5. اسم الفاعل", "6. اسم المفعول", "7. فعل الأمر", "8. فعل النهي", "9. اسم الزمان", "10. اسم المكان", "11. اسم الآلة"]

/-- The eleven istilahi (label, form) pairs for a given rule number and slot characters:
the `if rule_number == 1 / elif == 2 / else` template selection of `app.py` lines 246-297
(the `else` branch is the "Default rule 1 pattern" comment in the source). -/
def istilahi_forms_for_rule (rule_number : Nat) (r1 r2 r3 : Char) : List (String × String) :=
  if rule_number = 1 then [
    ("1. الفعل الماضي", cs r1 ++ "َ" ++ cs r2 ++ "َ" ++ cs r3 ++ "َ"),
    ("2. الفعل المضارع", "يَ" ++ cs r1 ++ "ْ" ++ cs r2 ++ "ُ" ++ cs r3 ++ "ُ"),
    ("3. المصدر", cs r1 ++ "َ" ++ cs r2 ++ "ْ" ++ cs r3 ++ "ًا"),
    ("4. المصدر الميمي", "مَ" ++ cs r1 ++ "ْ" ++ cs r2 ++ "َ" ++ cs r3 ++ "ًا"),
    ("5. اسم الفاعل", cs r1 ++ "َا" ++ cs r2 ++ "ِ" ++ cs r3 ++ "ٌ"),
    ("6. اسم المفعول", "مَ" ++ cs r1 ++ "ْ" ++ cs r2 ++ "ُو" ++ cs r3 ++ "ٌ"),
    ("7. فعل الأمر", "اُ" ++ cs r1 ++ "ْ" ++ cs r2 ++ "ُ" ++ cs r3 ++ "ْ"),
    ("8. فعل النهي", "لَا تَ" ++ cs r1 ++ "ْ" ++ cs r2 ++ "ُ" ++ cs r3 ++ "ْ"),
    ("9. اسم الزمان", "مَ" ++ cs r1 ++ "ْ" ++ cs r2 ++ "َ" ++ cs r3 ++ "ٌ"),
    ("10. اسم المكان", "مَ" ++ cs r1 ++ "ْ" ++ cs r2 ++ "َ" ++ cs r3 ++ "ٌ"),
    ("11. اسم الآلة", "مِ" ++ cs r1 ++ "ْ" ++ cs r2 ++ "َ" ++ cs r3 ++ "ٌ")]
  else if rule_number = 2 then [
    ("1. الفعل الماضي", cs r1 ++ "َ" ++ cs r2 ++ "َ" ++ cs r3 ++ "َ"),
    ("2. الفعل المضارع", "يَ" ++ cs r1 ++ "ْ" ++ cs r2 ++ "ِ" ++ cs r3 ++ "ُ"),
    ("3. المصدر", cs r1 ++ "َ" ++ cs r2 ++ "ْ" ++ cs r3 ++ "ًا"),
    ("4. المصدر الميمي", "مَ" ++ cs r1 ++ "ْ" ++ cs r2 ++ "َ" ++ cs r3 ++ "ًا"),
    ("5. اسم الفاعل", cs r1 ++ "َا" ++ cs r2 ++ "ِ" ++ cs r3 ++ "ٌ"),
    ("6. اسم المفعول", "مَ" ++ cs r1 ++ "ْ" ++ cs r2 ++ "ُو" ++ cs r3 ++ "ٌ"),
    ("7. فعل الأمر", "اِ" ++ cs r1 ++ "ْ" ++ cs r2 ++ "ِ" ++ cs r3 ++ "ْ"),
    ("8. فعل النهي", "لَا تَ" ++ cs r1 ++ "ْ" ++ cs r2 ++ "ِ" ++ cs r3 ++ "ْ"),
    ("9. اسم الزمان", "مَ" ++ cs r1 ++ "ْ" ++ cs r2 ++ "ِ" ++ cs r3 ++ "ٌ"),
    ("10. اسم المكان", "مَ" ++ cs r1 ++ "ْ" ++ cs r2 ++ "ِ" ++ cs r3 ++ "ٌ"),
    ("11. اسم الآلة", "مِ" ++ cs r1 ++ "ْ" ++ cs r2 ++ "َ" ++ cs r3 ++ "ٌ")]
  else [
    ("1. الفعل الماضي", cs r1 ++ "َ" ++ cs r2 ++ "َ" ++ cs r3 ++ "َ"),
    ("2. الفعل المضارع", "يَ" ++ cs r1 ++ "ْ" ++ cs r2 ++ "ُ" ++ cs r3 ++ "ُ"),
    ("3. المصدر", cs r1 ++ "َ" ++ cs r2 ++ "ْ" ++ cs r3 ++ "ًا"),
    ("4. المصدر الميمي", "مَ" ++ cs r1 ++ "ْ" ++ cs r2 ++ "َ" ++ cs r3 ++ "ًا"),
    ("5. اسم الفاعل", cs r1 ++ "َا" ++ cs r2 ++ "ِ" ++ cs r3 ++ "ٌ"),
    ("6. اسم المفعول", "مَ" ++ cs r1 ++ "ْ" ++ cs r2 ++ "ُو" ++ cs r3 ++ "ٌ"),
    ("7. فعل الأمر", "اُ" ++ cs r1 ++ "ْ" ++ cs r2 ++ "ُ" ++ cs r3 ++ "ْ"),
    ("8. فعل النهي", "لَا تَ" ++ cs r1 ++ "ْ" ++ cs r2 ++ "ُ" ++ cs r3 ++ "ْ"),
    ("9. اسم الزمان", "مَ" ++ cs r1 ++ "ْ" ++ cs r2 ++ "َ" ++ cs r3 ++ "ٌ"),
    ("10. اسم المكان", "مَ" ++ cs r1 ++ "ْ" ++ cs r2 ++ "َ" ++ cs r3 ++ "ٌ"),
    ("11. اسم الآلة", "مِ" ++ cs r1 ++ "ْ" ++ cs r2 ++ "َ" ++ cs r3 ++ "ٌ")]

/-- The istilahi branch of the `/tasrif` handler: pick the rule for the (normalized) root,
then instantiate the templates with its first three characters. -/
def istilahi_tasrif (root : String) : List (String × String) :=
  istilahi_forms_for_rule (get_rule_by_root root) (r1_of root) (r2_of root) (r3_of root)

/-- The fourteen pronoun labels of the lughowiy table, in source order. -/
def lughowiy_labels : List String := [
  "هُوَ", "هما (م)", "هم", "هي", "هما (ف)", "هنّ", "أنتَ", "أنتما (م)", "أنتم", "أنتِ", "أنتما (ف)", "أنتنّ", "أنا", "نحن"]

/-- The fourteen lughowiy (pronoun, form) pairs for slot characters r1 r2 r3
(`app.py` lines 300-315). -/
def lughowiy_pairs (r1 r2 r3 : Char) : List (String × String) := [
  ("هُوَ", cs r1 ++ "َ" ++ cs r2 ++ "َ" ++ cs r3 ++ "َ"),
  ("هما (م)", cs r1 ++ "َ" ++ cs r2 ++ "َ" ++ cs r3 ++ "َا"),
  ("هم", cs r1 ++ "َ" ++ cs r2 ++ "َ" ++ cs r3 ++ "ُوا"),
  ("هي", cs r1 ++ "َ" ++ cs r2 ++ "َ" ++ cs r3 ++ "َتْ"),
  ("هما (ف)", cs r1 ++ "َ" ++ cs r2 ++ "َ" ++ cs r3 ++ "َتَا"),
  ("هنّ", cs r1 ++ "َ" ++ cs r2 ++ "َ" ++ cs r3 ++ "ْنَ"),
  ("أنتَ", cs r1 ++ "َ" ++ cs r2 ++ "َ" ++ cs r3 ++ "ْتَ"),
  ("أنتما (م)", cs r1 ++ "َ" ++ cs r2 ++ "َ" ++ cs r3 ++ "ْتُمَا"),
  ("أنتم", cs r1 ++ "َ" ++ cs r2 ++ "َ" ++ cs r3 ++ "ْتُمْ"),
  ("أنتِ", cs r1 ++ "َ" ++ cs r2 ++ "َ" ++ cs r3 ++ "ْتِ"),
  ("أنتما (ف)", cs r1 ++ "َ" ++ cs r2 ++ "َ" ++ cs r3 ++ "ْتُمَا"),
  ("أنتنّ", cs r1 ++ "َ" ++ cs r2 ++ "َ" ++ cs r3 ++ "ْتُنَّ"),
  ("أنا", cs r1 ++ "َ" ++ cs r2 ++ "َ" ++ cs r3 ++ "ْتُ"),
  ("نحن", cs r1 ++ "َ" ++ cs r2 ++ "َ" ++ cs r3 ++ "ْنَا")]

/-- The lughowiy branch of the `/tasrif` handler. -/
def lughowiy_tasrif (root : String) : List (String × String) :=
  lughowiy_pairs (r1_of root) (r2_of root) (r3_of root)

/-- Body of a `/tasrif` POST request: each field may be missing. -/
structure TasrifReqData where
  root : Option String
  mode : Option String

/-- Response of the `/tasrif` handler: an error JSON with an HTTP status code,
or the success payload `{success: true, tasrif: ..., root: ...}`. -/
inductive TasrifResponse where
  | err (status : Nat) (error : String)
  | ok (tasrif : List (String × String)) (root : String)
deriving DecidableEq

/-- The `/tasrif` handler `generate_tasrif` (`app.py` lines 228-323), POST path.
`none` models a missing/falsy JSON body. -/
def generate_tasrif_handler (data : Option TasrifReqData) : TasrifResponse :=
  match data with
  | none => .err 400 "Need root and mode"
  | some d =>
    match d.root, d.mode with
    | some root0, some mode =>
      let root := normalize_root root0
      if root.length < 3 then .err 400 "Invalid root"
      else if mode = "istilahi" then .ok (istilahi_tasrif root) root
      else if mode = "lughowiy" then .ok (lughowiy_tasrif root) root
      else if mode = "isim" then .ok (generate_tasrif_isim root) root
      else .err 400 "Invalid mode"
    | _, _ => .err 400 "Need root and mode"

/-- A candidate object in the external API reply: either it has the expected
`content.parts[0].text` shape, or accessing that raises (KeyError/IndexError/TypeError),
carrying the exception message. -/
inductive GeminiCandidate where
  | wellFormed (text : String)
  | malformed (exnMsg : String)

/-- Outcome of the outbound call in `analyze_arabic_morphology`: timeout,
other transport/HTTP failure (`requests.exceptions.RequestException`, including
`raise_for_status`), or a JSON body whose `candidates` key may be absent. -/
inductive GeminiReply where
  | timeout
  | requestError (detail : String)
  | httpBody (candidates : Option (List GeminiCandidate))

/-- The structured error dictionaries returned by `analyze_arabic_morphology`:
`{error, raw_response?, analysis: [], summary}`. `J` is the type of parsed JSON values. -/
structure ErrorPayload (J : Type) where
  error : String
  raw_response : Option String
  analysis : List J
  summary : String

/-- Value returned by `analyze_arabic_morphology`: the parsed morphology JSON
passed through verbatim, or a structured error payload. -/
inductive AnalysisOutcome (J : Type) where
  | parsed (data : J)
  | failed (p : ErrorPayload J)

/-- Result of running a Python function: normal return, or an uncaught exception. -/
inductive PyResult (α : Type) where
  | ok (v : α)
  | exn (msg : String)

/-- The code-fence stripping of `app.py` lines 93-96 applied to the candidate text. -/
def strip_code_fence (content : String) : String :=
  if content.startsWith "```json" then
    ((content.replace "```json" "").replace "```" "").trim
  else if content.startsWith "```" then
    (content.replace "```" "").trim
  else content

/-- `analyze_arabic_morphology` (`app.py` lines 22-125), as a function of the
external reply and of the JSON parser `jsonLoads` (`json.loads`: `none` = parse failure).
Only `Timeout` and `RequestException` are caught; an exception raised while
extracting a malformed candidate escapes as `PyResult.exn`. -/
def analyze_arabic_morphology (J : Type) (jsonLoads : String → Option J)
    (reply : GeminiReply) : PyResult (AnalysisOutcome J) :=
  match reply with
  | .timeout => .ok (.failed ⟨"Request timeout", none, [], "انتهت مهلة الطلب"⟩)
  | .requestError detail =>
    .ok (.failed ⟨"API request failed: " ++ detail, none, [], "حدث خطأ في الاتصال بالخدمة"⟩)
  | .httpBody candidates =>
    match candidates with
    | some (c :: _) =>
      match c with
      | .malformed e => .exn e
      | .wellFormed text =>
        let content := strip_code_fence text
        match jsonLoads content with
        | some d => .ok (.parsed d)
        | none => .ok (.failed ⟨"Could not parse JSON response", some content, [], "تعذر تحليل النص بشكل صحيح"⟩)
    | _ => .ok (.failed ⟨"No response from Gemini API", none, [], "لم يتم الحصول على رد من الخدمة"⟩)

/-- Body of a `/analyze` POST request: missing/falsy JSON, JSON without a
`text` key, or a body with a `text` string. -/
inductive AnalyzeReqBody where
  | noJson
  | noTextField
  | withText (text : String)

/-- HTTP response of the `/analyze` handler. -/
inductive AnalyzeHttpResponse (J : Type) where
  | badRequest (error message : String)
  | okResponse (input_text : String) (result : AnalysisOutcome J)
  | serverError (error message : String)

/-- The HTTP status code the handler attaches to each response shape. -/
def http_status {J : Type} : AnalyzeHttpResponse J → Nat
  | .badRequest _ _ => 400
  | .okResponse _ _ => 200
  | .serverError _ _ => 500

/-- The `/analyze` handler `analyze_text` (`app.py` lines 144-173), POST path:
validate the body, call the proxy, and map an uncaught exception to a 500 response
(`except Exception` at line 169). -/
def analyze_text (J : Type) (jsonLoads : String → Option J)
    (body : AnalyzeReqBody) (reply : GeminiReply) : AnalyzeHttpResponse J :=
  match body with
  | .noJson => .badRequest "No text provided" "يرجى إدخال نص للتحليل"
  | .noTextField => .badRequest "No text provided" "يرجى إدخال نص للتحليل"
  | .withText t =>
    let arabic_text := py_strip t
    if arabic_text = "" then .badRequest "Empty text" "النص فارغ"
    else
      match analyze_arabic_morphology J jsonLoads reply with
      | .ok result => .okResponse arabic_text result
      | .exn e => .serverError ("Server error: " ++ e) "حدث خطأ في الخادم"

/-- The replies of the external API that §7 of the spec classifies as
external-dependency errors, minus the unexpected-shape case: timeout, transport
failure, empty or missing candidate list, or a first candidate whose (fence-stripped)
text fails to parse as JSON. -/
def external_error_reply (J : Type) (jsonLoads : String → Option J) : GeminiReply → Prop
  | .timeout => True
  | .requestError _ => True
  | .httpBody none => True
  | .httpBody (some []) => True
  | .httpBody (some (.wellFormed s :: _)) => jsonLoads (strip_code_fence s) = none
  | .httpBody (some (.malformed _ :: _)) => False

/-- The root "نصر" from the source rule table. -/
def root_nasr : String := "نصر"

/-- The root "كتب" from the source rule table. -/
def root_ktb : String := "كتب"

/-- The root "ضرب" from the source rule table. -/
def root_drb : String := "ضرب"

/-- The root "فتح" from the source rule table. -/
def root_fth : String := "فتح"

/-- The expected past-tense form for the root "كتب": "كَتَبَ". -/
def kataba_expected : String := "كَتَبَ"

/-- The Arabic summary of the timeout error payload (`app.py` line 118). -/
def msg_timeout_summary : String := "انتهت مهلة الطلب"

/-- The Arabic message of the 500 response of `/analyze` (`app.py` line 172). -/
def msg_server_error_message : String := "حدث خطأ في الخادم"

/-! ## Helper lemmas -/

/-- Two strings with the same first three characters feed identical characters into
the three template slots. -/
theorem slots_eq_of_first_three_eq (s t : String) (h : first_three s = first_three t) :
    r1_of s = r1_of t ∧ r2_of s = r2_of t ∧ r3_of s = r3_of t := by
  have hd : s.data.take 3 = t.data.take 3 := congrArg String.data h
  unfold r1_of r2_of r3_of
  rcases hs : s.data with _ | ⟨a, _ | ⟨b, _ | ⟨c, u⟩⟩⟩ <;>
    rcases ht : t.data with _ | ⟨a2, _ | ⟨b2, _ | ⟨c2, u2⟩⟩⟩ <;>
      simp_all [first_three, List.take]

/-- Taking the first three characters is idempotent. -/
theorem first_three_first_three (s : String) :
    first_three (first_three s) = first_three s := by
  simp [first_three, List.take_take]

/-! ## Claims -/

/-- Claim C1: for every root of length ≥ 3, the istilahi conjugation is an ordered
sequence of exactly 11 (label, form) pairs with the fixed label order of
`istilahi_labels` (past, present, masdar, masdar-mimi, active participle, passive
participle, imperative, prohibitive, noun-of-time, noun-of-place, noun-of-instrument);
and whenever the root's rule number is 3, 4, 5 or 6, the generated table coincides,
pair for pair, with the table rule 1 produces for the same root. -/
theorem istilahi_contract (root : String) (h : 3 ≤ root.length) :
    (istilahi_tasrif root).map Prod.fst = istilahi_labels ∧
    (istilahi_tasrif root).length = 11 ∧
    (get_rule_by_root root ∈ [3, 4, 5, 6] →
      istilahi_tasrif root =
        istilahi_forms_for_rule 1 (r1_of root) (r2_of root) (r3_of root)) := by
  refine ⟨?_, ?_, ?_⟩
  · unfold istilahi_tasrif istilahi_forms_for_rule
    split
    · rfl
    · split
      · rfl
      · rfl
  · unfold istilahi_tasrif istilahi_forms_for_rule
    split
    · rfl
    · split
      · rfl
      · rfl
  · intro hmem
    unfold istilahi_tasrif
    simp only [List.mem_cons, List.not_mem_nil, or_false] at hmem
    rcases hmem with h3 | h3 | h3 | h3 <;> rw [h3] <;> rfl

theorem istilahi_contract_witness :
    ((istilahi_tasrif root_fth).map Prod.fst = istilahi_labels ∧
      (istilahi_tasrif root_fth).length = 11 ∧
      (get_rule_by_root root_fth ∈ [3, 4, 5, 6] →
        istilahi_tasrif root_fth =
          istilahi_forms_for_rule 1 (r1_of root_fth) (r2_of root_fth) (r3_of root_fth))) ∧
    get_rule_by_root root_fth ∈ [3, 4, 5, 6] :=
  ⟨istilahi_contract root_fth (by decide), by decide⟩

/-- Claim C2 (as stated) is false: the rule number is looked up with the whole
root string, so a fourth character can change the selected template family.
Appending a character to the rule-2 root ضرب yields the default rule 1 and a
different conjugation table than the root's first three characters alone. -/
theorem istilahi_not_first_three_only :
    3 ≤ (root_drb.push 'x').length ∧
    istilahi_tasrif (root_drb.push 'x') ≠
      istilahi_tasrif (first_three (root_drb.push 'x')) := by decide

/-- Claim C2 (amended): the istilahi conjugation of a root of length ≥ 3 uses only
the first three characters as substitution slots; it coincides with the conjugation
of the string of its first three characters whenever the rule lookup agrees on the
two strings (characters beyond the third can still change the rule lookup). -/
theorem istilahi_first_three_of_rule_eq (root : String) (h : 3 ≤ root.length)
    (hr : get_rule_by_root root = get_rule_by_root (first_three root)) :
    istilahi_tasrif root = istilahi_tasrif (first_three root) := by
  obtain ⟨e1, e2, e3⟩ :=
    slots_eq_of_first_three_eq (first_three root) root (first_three_first_three root)
  unfold istilahi_tasrif
  rw [hr, e1, e2, e3]

theorem istilahi_first_three_of_rule_eq_witness :
    istilahi_tasrif (root_ktb.push 'x') = istilahi_tasrif (first_three (root_ktb.push 'x')) :=
  istilahi_first_three_of_rule_eq (root_ktb.push 'x') (by decide) (by decide)

/-- Claim C3 (as stated) is false: a first candidate of unexpected shape raises
inside `analyze_arabic_morphology`, is not caught there (only `Timeout` and
`RequestException` are), and reaches the catch-all of `analyze_text`, which answers
with a 500-class response — not an HTTP success wrapping a structured error. -/
theorem analyze_malformed_candidate_500 :
    analyze_text String (fun s => some s) (.withText "x")
        (.httpBody (some [.malformed "KeyError"])) =
      .serverError ("Server error: " ++ "KeyError") msg_server_error_message ∧
    http_status (analyze_text String (fun s => some s) (.withText "x")
        (.httpBody (some [.malformed "KeyError"]))) = 500 := by
  exact ⟨rfl, rfl⟩

/-- Claim C3 (amended): for every external reply that is a timeout, a transport
failure, an empty or missing candidate list, or a first candidate whose text is not
parseable JSON (but whose object shape is as expected), the `/analyze` handler
returns an HTTP 200 response wrapping a structured error payload; a candidate
object of unexpected shape instead escalates to a 500-class response. -/
theorem analyze_external_error_recovered (J : Type) (jsonLoads : String → Option J)
    (t : String) (ht : py_strip t ≠ "") (reply : GeminiReply)
    (hr : external_error_reply J jsonLoads reply) :
    (∃ p : ErrorPayload J,
      analyze_text J jsonLoads (.withText t) reply = .okResponse (py_strip t) (.failed p)) ∧
    http_status (analyze_text J jsonLoads (.withText t) reply) = 200 := by
  have hm : ∃ p : ErrorPayload J,
      analyze_arabic_morphology J jsonLoads reply = .ok (.failed p) := by
    rcases reply with _ | d | cands
    · exact ⟨_, rfl⟩
    · exact ⟨_, rfl⟩
    · rcases cands with _ | l
      · exact ⟨_, rfl⟩
      · rcases l with _ | ⟨c, rest⟩
        · exact ⟨_, rfl⟩
        · rcases c with s | e
          · have hn : jsonLoads (strip_code_fence s) = none := hr
            unfold analyze_arabic_morphology
            simp only [hn]
            exact ⟨_, rfl⟩
          · exact absurd hr (by simp [external_error_reply])
  obtain ⟨p, hp⟩ := hm
  refine ⟨⟨p, ?_⟩, ?_⟩ <;> simp [analyze_text, http_status, hp, ht]

theorem analyze_external_error_recovered_witness :
    (∃ p : ErrorPayload String,
      analyze_text String (fun _ => none) (.withText "x") (.httpBody (some [])) =
        .okResponse "x" (.failed p)) ∧
    http_status (analyze_text String (fun _ => none) (.withText "x")
        (.httpBody (some []))) = 200 :=
  analyze_external_error_recovered String (fun _ => none) "x" (by decide)
    (.httpBody (some [])) trivial

/-- Claim C4: when the outbound call times out, `/analyze` (with a valid non-empty
text) returns an HTTP 200 response whose result has error "Request timeout", an
empty analysis list and the Arabic summary message; no exception propagates. -/
theorem analyze_timeout_recovered (J : Type) (jsonLoads : String → Option J)
    (t : String) (ht : py_strip t ≠ "") :
    analyze_text J jsonLoads (.withText t) .timeout =
      .okResponse (py_strip t)
        (.failed ⟨"Request timeout", none, ([] : List J), msg_timeout_summary⟩) ∧
    http_status (analyze_text J jsonLoads (.withText t) .timeout) = 200 := by
  constructor <;> simp [analyze_text, analyze_arabic_morphology, http_status,
    msg_timeout_summary, ht]

theorem analyze_timeout_recovered_witness :
    analyze_text String (fun _ => none) (.withText "x") .timeout =
      .okResponse "x"
        (.failed ⟨"Request timeout", none, ([] : List String), msg_timeout_summary⟩) ∧
    http_status (analyze_text String (fun _ => none) (.withText "x") .timeout) = 200 :=
  analyze_timeout_recovered String (fun _ => none) "x" (by decide)

/-- Claim C5: for every root of length ≥ 3, `generate_tasrif_isim` returns exactly
the 6 (label, form) pairs of the single فَاعِل pattern, with labels in the fixed
order singular, dual masculine, dual feminine, sound masculine plural, sound
feminine plural, broken plural; for every root of length < 3 it returns []. -/
theorem isim_contract (root : String) :
    (3 ≤ root.length →
      generate_tasrif_isim root = isim_pairs (r1_of root) (r2_of root) (r3_of root) ∧
      (generate_tasrif_isim root).map Prod.fst = isim_labels ∧
      (generate_tasrif_isim root).length = 6) ∧
    (root.length < 3 → generate_tasrif_isim root = []) := by
  constructor
  · intro h
    have hlt : ¬ root.length < 3 := by omega
    refine ⟨?_, ?_, ?_⟩ <;> simp [generate_tasrif_isim, hlt, isim_pairs, isim_labels]
  · intro h
    simp [generate_tasrif_isim, h]

theorem isim_contract_witness :
    (generate_tasrif_isim root_ktb).map Prod.fst = isim_labels ∧
    generate_tasrif_isim (String.mk (root_ktb.data.take 2)) = [] :=
  ⟨((isim_contract root_ktb).1 (by decide)).2.1,
    (isim_contract (String.mk (root_ktb.data.take 2))).2 (by decide)⟩

/-- Claim C6: for every root of length ≥ 3, the lughowiy conjugation is exactly 14
(pronoun-label, form) pairs in the fixed pronoun order of `lughowiy_labels`
(third/second/first person across singular/dual/plural, masculine/feminine), and
the table depends only on the three slot characters — in particular it is
independent of the root's rule number: any root with the same first three
characters gets the identical table. -/
theorem lughowiy_contract (root : String) (h : 3 ≤ root.length) :
    (lughowiy_tasrif root).map Prod.fst = lughowiy_labels ∧
    (lughowiy_tasrif root).length = 14 ∧
    ∀ root2 : String, first_three root2 = first_three root →
      lughowiy_tasrif root2 = lughowiy_tasrif root := by
  refine ⟨rfl, rfl, ?_⟩
  intro root2 h2
  obtain ⟨e1, e2, e3⟩ := slots_eq_of_first_three_eq root2 root h2
  unfold lughowiy_tasrif
  rw [e1, e2, e3]

theorem lughowiy_contract_witness :
    (lughowiy_tasrif root_drb).map Prod.fst = lughowiy_labels ∧
    (lughowiy_tasrif root_drb).length = 14 ∧
    lughowiy_tasrif (root_drb.push 'x') = lughowiy_tasrif root_drb :=
  ⟨(lughowiy_contract root_drb (by decide)).1,
    (lughowiy_contract root_drb (by decide)).2.1,
    (lughowiy_contract root_drb (by decide)).2.2 (root_drb.push 'x') (by decide)⟩

/-- Claim C7: `get_rule_by_root` is a pure lookup over a static mapping of exactly
12 roots, two per rule number; its value is always in [1,6]; the roots نصر and ضرب
map to 1 and 2, and every root not in the mapping (such as "xyz") yields the
default rule 1. -/
theorem rule_selector_contract :
    rule_map.length = 12 ∧
    (∀ n, n ∈ [1, 2, 3, 4, 5, 6] →
      (rule_map.filter (fun p => p.2 == n)).length = 2) ∧
    get_rule_by_root root_nasr = 1 ∧
    get_rule_by_root root_drb = 2 ∧
    get_rule_by_root "xyz" = 1 ∧
    (∀ root : String, rule_map.lookup root = none → get_rule_by_root root = 1) ∧
    ∀ root : String, 1 ≤ get_rule_by_root root ∧ get_rule_by_root root ≤ 6 := by
  refine ⟨rfl, ?_, by decide, by decide, rfl, ?_, ?_⟩
  · intro n hn
    fin_cases hn <;> rfl
  · intro root hnone
    unfold get_rule_by_root
    rw [hnone]
    rfl
  · intro root
    unfold get_rule_by_root rule_map
    simp only [List.lookup]
    repeat' split <;> simp_all

theorem rule_selector_contract_witness :
    (rule_map.filter (fun p => p.2 == 3)).length = 2 ∧
    get_rule_by_root "abc" = 1 ∧
    (1 ≤ get_rule_by_root "abc" ∧ get_rule_by_root "abc" ≤ 6) :=
  ⟨rule_selector_contract.2.1 3 (by decide),
    rule_selector_contract.2.2.2.2.2.1 "abc" (by decide),
    rule_selector_contract.2.2.2.2.2.2 "abc"⟩

/-- Claim C8: a `/tasrif` request with root كتب and mode istilahi is accepted, and
the form paired with the first (past-tense) label is exactly the string كَتَبَ. -/
theorem tasrif_kataba_past :
    generate_tasrif_handler (some ⟨some root_ktb, some "istilahi"⟩) =
      .ok (istilahi_tasrif root_ktb) root_ktb ∧
    ((istilahi_tasrif root_ktb).map Prod.snd).head? = some kataba_expected := by decide

/-- Claim C9: the `/tasrif` handler rejects with a 400 error every request with a
missing body, missing root or missing mode; every request whose space-stripped root
has fewer than 3 characters; and every request whose mode is none of istilahi,
lughowiy, isim (with the explicit "Invalid mode" error). Every accepted request is
answered with the success payload carrying the generated table and the normalized
root. -/
theorem tasrif_validation (root0 mode : String) :
    generate_tasrif_handler none = .err 400 "Need root and mode" ∧
    generate_tasrif_handler (some ⟨none, some mode⟩) = .err 400 "Need root and mode" ∧
    generate_tasrif_handler (some ⟨some root0, none⟩) = .err 400 "Need root and mode" ∧
    generate_tasrif_handler (some ⟨none, none⟩) = .err 400 "Need root and mode" ∧
    ((normalize_root root0).length < 3 →
      generate_tasrif_handler (some ⟨some root0, some mode⟩) = .err 400 "Invalid root") ∧
    (3 ≤ (normalize_root root0).length →
      mode ≠ "istilahi" → mode ≠ "lughowiy" → mode ≠ "isim" →
      generate_tasrif_handler (some ⟨some root0, some mode⟩) = .err 400 "Invalid mode") ∧
    (3 ≤ (normalize_root root0).length →
      generate_tasrif_handler (some ⟨some root0, some "istilahi"⟩) =
        .ok (istilahi_tasrif (normalize_root root0)) (normalize_root root0) ∧
      generate_tasrif_handler (some ⟨some root0, some "lughowiy"⟩) =
        .ok (lughowiy_tasrif (normalize_root root0)) (normalize_root root0) ∧
      generate_tasrif_handler (some ⟨some root0, some "isim"⟩) =
        .ok (generate_tasrif_isim (normalize_root root0)) (normalize_root root0)) := by
  refine ⟨rfl, rfl, rfl, rfl, ?_, ?_, ?_⟩
  · intro h
    simp [generate_tasrif_handler, h]
  · intro h h1 h2 h3
    have hlt : ¬ (normalize_root root0).length < 3 := by omega
    simp [generate_tasrif_handler, hlt, h1, h2, h3]
  · intro h
    have hlt : ¬ (normalize_root root0).length < 3 := by omega
    refine ⟨?_, ?_, ?_⟩ <;> simp [generate_tasrif_handler, hlt]

theorem tasrif_validation_witness :
    generate_tasrif_handler (some ⟨some root_ktb, some "bad"⟩) = .err 400 "Invalid mode" ∧
    generate_tasrif_handler (some ⟨some root_ktb, some "ab"⟩) = .err 400 "Invalid mode" ∧
    generate_tasrif_handler (some ⟨some "ab", some "isim"⟩) = .err 400 "Invalid root" ∧
    generate_tasrif_handler (some ⟨some root_ktb, some "isim"⟩) =
      .ok (generate_tasrif_isim (normalize_root root_ktb)) (normalize_root root_ktb) :=
  ⟨(tasrif_validation root_ktb "bad").2.2.2.2.2.1 (by decide)
      (by decide) (by decide) (by decide),
    (tasrif_validation root_ktb "ab").2.2.2.2.2.1 (by decide)
      (by decide) (by decide) (by decide),
    (tasrif_validation "ab" "isim").2.2.2.2.1 (by decide),
    ((tasrif_validation root_ktb "x").2.2.2.2.2.2 (by decide)).2.2⟩

/-- Claim C10: for every root of length ≥ 3, the active-participle form (the fifth
istilahi pair, اسم الفاعل) equals the singular form produced by the isim mode (the
first pair) character for character, and this holds under every rule number. -/
theorem ism_fael_matches_isim_singular (root : String) (h : 3 ≤ root.length) :
    (∀ n : Nat,
      ((istilahi_forms_for_rule n (r1_of root) (r2_of root) (r3_of root))[4]?).map Prod.snd =
        ((generate_tasrif_isim root)[0]?).map Prod.snd) ∧
    ((istilahi_tasrif root)[4]?).map Prod.snd =
      ((generate_tasrif_isim root)[0]?).map Prod.snd := by
  have hlt : ¬ root.length < 3 := by omega
  constructor
  · intro n
    unfold istilahi_forms_for_rule generate_tasrif_isim
    rw [if_neg hlt]
    split
    · rfl
    · split
      · rfl
      · rfl
  · unfold istilahi_tasrif istilahi_forms_for_rule generate_tasrif_isim
    rw [if_neg hlt]
    split
    · rfl
    · split
      · rfl
      · rfl

theorem ism_fael_matches_isim_singular_witness :
    ((istilahi_forms_for_rule 2 (r1_of root_drb) (r2_of root_drb) (r3_of root_drb))[4]?).map
        Prod.snd =
      ((generate_tasrif_isim root_drb)[0]?).map Prod.snd ∧
    ((istilahi_tasrif root_drb)[4]?).map Prod.snd =
      ((generate_tasrif_isim root_drb)[0]?).map Prod.snd :=
  ⟨(ism_fael_matches_isim_singular root_drb (by decide)).1 2,
    (ism_fael_matches_isim_singular root_drb (by decide)).2⟩

end ArabicMorphology
